import Mathlib

/-!
Shallow embedding of `trading_bot.py` (a Binance Futures testnet trading
bot).  The bot is a thin facade: every method builds a parameter mapping,
logs the outgoing request, delegates to the vendor client, logs the
response, and returns it (re-raising vendor exceptions after logging).

Modelling choices:
* Python dictionaries become association lists (`List (String × _)`),
  preserving insertion order; lookup is `List.lookup`.
* The vendor SDK client (`binance.client.Client`) becomes a record of
  oracles, one per consumed endpoint; each oracle returns
  `Except PyError _` (the `.error` case models a raised exception).
* Each facade method becomes a pure function from the client (and its
  arguments) to a `MethodResult`: the list of log entries it emits, in
  order, together with its returned value or raised exception.
* Python `float` values are modelled exactly as scaled decimals
  (`mant * 10 ^ (- exp)`), since every claim about them concerns only
  parse success and sign, never rounding.
-/

/-- Error values a facade method can raise: the two vendor exception types
(`BinanceAPIException`, `BinanceOrderException`) and Python's `ValueError`. -/
inductive PyError
  | binanceAPI (m : String)
  | binanceOrder (m : String)
  | valueError (m : String)
deriving DecidableEq, Repr

/-- Message carried by an exception (Python `str(error)`). -/
def PyError.msg : PyError → String
  | .binanceAPI m => m
  | .binanceOrder m => m
  | .valueError m => m

/-- True for the two vendor exception types raised by the exchange client. -/
def PyError.isBinance : PyError → Bool
  | .binanceAPI _ => true
  | .binanceOrder _ => true
  | .valueError _ => false

/-- Exact model of a Python float used by the bot: the value
`mant / 10 ^ exp`.  Quantities, prices and stop prices are such values. -/
structure PyFloat where
  mant : Int
  exp : Nat
deriving DecidableEq, Repr

/-- Comparison `a < b` on modelled floats (cross-multiplied exact compare). -/
def PyFloat.lt (a b : PyFloat) : Bool :=
  a.mant * (10 : Int) ^ b.exp < b.mant * (10 : Int) ^ a.exp

/-- Rendering of a modelled float, standing in for Python float formatting
inside f-strings. -/
def pyFloatStr (v : PyFloat) : String :=
  toString v.mant ++ "/10^" ++ toString v.exp

/-- Values stored in a parameter or response mapping (Python dict values:
strings, floats, ints). -/
inductive PValue
  | s (v : String)
  | num (v : PyFloat)
  | int (v : Int)
deriving DecidableEq, Repr

/-- A Python dict with string keys, in insertion order. -/
abbrev PDict := List (String × PValue)

/-- One record emitted through `TradingBotLogger`: the four structured
entry kinds plus plain informational lines. -/
inductive LogEntry
  | apiRequest (method : String) (params : PDict)
  | apiResponse (method : String) (response : PDict)
  | errorLog (context : String) (message : String)
  | orderExecution (order : PDict)
  | info (message : String)
deriving DecidableEq, Repr

/-- Methods of the request-log entries of a log, in order. -/
def reqNames (l : List LogEntry) : List String :=
  l.filterMap fun e =>
    match e with
    | .apiRequest m _ => some m
    | _ => none

/-- Methods of the response-log entries of a log, in order. -/
def respNames (l : List LogEntry) : List String :=
  l.filterMap fun e =>
    match e with
    | .apiResponse m _ => some m
    | _ => none

/-- The error-log entries of a log, in order. -/
def errEntries (l : List LogEntry) : List LogEntry :=
  l.filter fun e =>
    match e with
    | .errorLog _ _ => true
    | _ => false

/-- Ticker response of `futures_symbol_ticker` (only `price` is read). -/
structure Ticker where
  price : String
deriving DecidableEq, Repr

/-- One entry of an instrument's `filters` list (the fields the bot reads). -/
structure SymbolFilter where
  filterType : String
  minQty : String
  stepSize : String
deriving DecidableEq, Repr

/-- One instrument record of the exchange-wide instrument list. -/
structure SymbolRec where
  symbol : String
  status : String
  baseAsset : String
  quoteAsset : String
  filters : List SymbolFilter
deriving DecidableEq, Repr

/-- Response of `futures_exchange_info`. -/
structure ExchangeInfo where
  symbols : List SymbolRec
deriving DecidableEq, Repr

/-- The vendor SDK client, as a record of response oracles: each field is
the outcome the exchange would give for that call in the run being
reasoned about.  Endpoints called with a params dict receive exactly the
dict the bot built. -/
structure Client where
  futures_ping : Except PyError PDict
  futures_account : Except PyError (List (String × String))
  futures_symbol_ticker : String → Except PyError Ticker
  futures_exchange_info : Except PyError ExchangeInfo
  futures_create_order : PDict → Except PyError PDict
  futures_cancel_order : PDict → Except PyError PDict
  futures_get_open_orders : PDict → Except PyError (List PDict)
  futures_get_order : PDict → Except PyError PDict

/-- Outcome of one facade method call: the log entries it emitted, in
order, and its return value or raised exception. -/
structure MethodResult (α : Type) where
  log : List LogEntry
  result : Except PyError α
deriving Repr

/-- Client.FUTURE_ORDER_TYPE_MARKET. -/
def FUTURE_ORDER_TYPE_MARKET : String := "MARKET"

/-- Client.FUTURE_ORDER_TYPE_LIMIT. -/
def FUTURE_ORDER_TYPE_LIMIT : String := "LIMIT"

/-- Client.FUTURE_ORDER_TYPE_STOP. -/
def FUTURE_ORDER_TYPE_STOP : String := "STOP"

/-- Client.TIME_IN_FORCE_GTC. -/
def TIME_IN_FORCE_GTC : String := "GTC"

/-- Python `str.upper()` (character-wise upper-casing). -/
def pyUpper (s : String) : String := ⟨s.data.map Char.toUpper⟩

/-- Python `str.strip()`: whitespace removed from both ends. -/
def pyStrip (s : String) : String :=
  ⟨((s.data.dropWhile Char.isWhitespace).reverse.dropWhile Char.isWhitespace).reverse⟩

/-- The `order_params` dict built by `place_market_order`
(`trading_bot.py` lines 160-166); `ts` is the sampled
`int(time.time() * 1000)`. -/
def market_order_params (symbol side : String) (quantity : PyFloat) (ts : Int) : PDict :=
  [("symbol", .s symbol),
   ("side", .s (pyUpper side)),
   ("type", .s FUTURE_ORDER_TYPE_MARKET),
   ("quantity", .num quantity),
   ("timestamp", .int ts)]

/-- The `order_params` dict built by `place_limit_order`
(`trading_bot.py` lines 187-195). -/
def limit_order_params (symbol side : String) (quantity price : PyFloat) (ts : Int) : PDict :=
  [("symbol", .s symbol),
   ("side", .s (pyUpper side)),
   ("type", .s FUTURE_ORDER_TYPE_LIMIT),
   ("quantity", .num quantity),
   ("price", .num price),
   ("timeInForce", .s TIME_IN_FORCE_GTC),
   ("timestamp", .int ts)]

/-- The `order_params` dict built by `place_stop_limit_order`
(`trading_bot.py` lines 216-225). -/
def stop_limit_order_params (symbol side : String) (quantity price stop_price : PyFloat)
    (ts : Int) : PDict :=
  [("symbol", .s symbol),
   ("side", .s (pyUpper side)),
   ("type", .s FUTURE_ORDER_TYPE_STOP),
   ("quantity", .num quantity),
   ("price", .num price),
   ("stopPrice", .num stop_price),
   ("timeInForce", .s TIME_IN_FORCE_GTC),
   ("timestamp", .int ts)]

/-- BasicBot.get_account_balance: logs the request, fetches the account,
projects three balance fields (defaulting to "0" when absent), logs the
response, returns the projection; a BinanceAPIException is logged with
context "Get Account Balance" and re-raised. -/
def get_account_balance (c : Client) : MethodResult (List (String × String)) :=
  let req := LogEntry.apiRequest "futures_account" []
  match c.futures_account with
  | .ok account_info =>
      let balance_info : List (String × String) :=
        [("totalWalletBalance", ((account_info.lookup "totalWalletBalance").getD "0")),
         ("availableBalance", ((account_info.lookup "availableBalance").getD "0")),
         ("totalUnrealizedProfit", ((account_info.lookup "totalUnrealizedProfit").getD "0"))]
      { log := [req, .apiResponse "futures_account" (balance_info.map fun p => (p.1, .s p.2))],
        result := .ok balance_info }
  | .error e =>
      match e with
      | .binanceAPI m =>
          { log := [req, .errorLog "Get Account Balance" m], result := .error (.binanceAPI m) }
      | e => { log := [req], result := .error e }

/-- BasicBot.get_symbol_info: fetches the ticker, then the exchange-wide
instrument list, scans it linearly for the symbol, raises ValueError when
absent, otherwise assembles the symbol-info dict (minQty/stepSize from the
first filter of type LOT_SIZE, "N/A" when none) and logs it under method
name "symbol_info".  Only BinanceAPIException is caught-logged-reraised;
the ValueError propagates without an error-log entry. -/
def get_symbol_info (c : Client) (symbol : String) : MethodResult (List (String × String)) :=
  let req1 := LogEntry.apiRequest "futures_symbol_ticker" [("symbol", .s symbol)]
  match c.futures_symbol_ticker symbol with
  | .error e =>
      match e with
      | .binanceAPI m =>
          { log := [req1, .errorLog ("Get Symbol Info for " ++ symbol) m],
            result := .error (.binanceAPI m) }
      | e => { log := [req1], result := .error e }
  | .ok ticker =>
      let req2 := LogEntry.apiRequest "futures_exchange_info" []
      match c.futures_exchange_info with
      | .error e =>
          match e with
          | .binanceAPI m =>
              { log := [req1, req2, .errorLog ("Get Symbol Info for " ++ symbol) m],
                result := .error (.binanceAPI m) }
          | e => { log := [req1, req2], result := .error e }
      | .ok exchange_info =>
          match exchange_info.symbols.find? (fun s => s.symbol == symbol) with
          | none =>
              { log := [req1, req2],
                result := .error (.valueError ("Symbol " ++ symbol ++ " not found")) }
          | some symbol_info =>
              let lot := symbol_info.filters.find? (fun f => f.filterType == "LOT_SIZE")
              let result : List (String × String) :=
                [("symbol", symbol),
                 ("price", ticker.price),
                 ("status", symbol_info.status),
                 ("baseAsset", symbol_info.baseAsset),
                 ("quoteAsset", symbol_info.quoteAsset),
                 ("minQty", ((lot.map SymbolFilter.minQty).getD "N/A")),
                 ("stepSize", ((lot.map SymbolFilter.stepSize).getD "N/A"))]
              { log := [req1, req2,
                        .apiResponse "symbol_info" (result.map fun p => (p.1, .s p.2))],
                result := .ok result }

/-- BasicBot.place_market_order: builds `market_order_params`, logs the
request, submits, logs response and order execution on success; either
vendor exception is logged with context
`f"Market Order {side} {quantity} {symbol}"` and re-raised. -/
def place_market_order (c : Client) (symbol side : String) (quantity : PyFloat)
    (ts : Int) : MethodResult PDict :=
  let order_params := market_order_params symbol side quantity ts
  let req := LogEntry.apiRequest "futures_create_order" order_params
  match c.futures_create_order order_params with
  | .ok order =>
      { log := [req, .apiResponse "futures_create_order" order, .orderExecution order],
        result := .ok order }
  | .error e =>
      let ctx := "Market Order " ++ side ++ " " ++ pyFloatStr quantity ++ " " ++ symbol
      match e with
      | .binanceOrder m =>
          { log := [req, .errorLog ctx m], result := .error (.binanceOrder m) }
      | .binanceAPI m =>
          { log := [req, .errorLog ctx m], result := .error (.binanceAPI m) }
      | e => { log := [req], result := .error e }

/-- BasicBot.place_limit_order, analogous to `place_market_order` with
context `f"Limit Order {side} {quantity} {symbol} @ {price}"`. -/
def place_limit_order (c : Client) (symbol side : String) (quantity price : PyFloat)
    (ts : Int) : MethodResult PDict :=
  let order_params := limit_order_params symbol side quantity price ts
  let req := LogEntry.apiRequest "futures_create_order" order_params
  match c.futures_create_order order_params with
  | .ok order =>
      { log := [req, .apiResponse "futures_create_order" order, .orderExecution order],
        result := .ok order }
  | .error e =>
      let ctx := "Limit Order " ++ side ++ " " ++ pyFloatStr quantity ++ " " ++ symbol
                   ++ " @ " ++ pyFloatStr price
      match e with
      | .binanceOrder m =>
          { log := [req, .errorLog ctx m], result := .error (.binanceOrder m) }
      | .binanceAPI m =>
          { log := [req, .errorLog ctx m], result := .error (.binanceAPI m) }
      | e => { log := [req], result := .error e }

/-- BasicBot.place_stop_limit_order, analogous, with context
`f"Stop-Limit Order {side} {quantity} {symbol} @ {price} (stop: {stop_price})"`. -/
def place_stop_limit_order (c : Client) (symbol side : String)
    (quantity price stop_price : PyFloat) (ts : Int) : MethodResult PDict :=
  let order_params := stop_limit_order_params symbol side quantity price stop_price ts
  let req := LogEntry.apiRequest "futures_create_order" order_params
  match c.futures_create_order order_params with
  | .ok order =>
      { log := [req, .apiResponse "futures_create_order" order, .orderExecution order],
        result := .ok order }
  | .error e =>
      let ctx := "Stop-Limit Order " ++ side ++ " " ++ pyFloatStr quantity ++ " " ++ symbol
                   ++ " @ " ++ pyFloatStr price ++ " (stop: " ++ pyFloatStr stop_price ++ ")"
      match e with
      | .binanceOrder m =>
          { log := [req, .errorLog ctx m], result := .error (.binanceOrder m) }
      | .binanceAPI m =>
          { log := [req, .errorLog ctx m], result := .error (.binanceAPI m) }
      | e => { log := [req], result := .error e }

/-- BasicBot.cancel_order: builds the cancel params, logs, submits, logs
the response; a BinanceAPIException is logged and re-raised. -/
def cancel_order (c : Client) (symbol order_id : String) : MethodResult PDict :=
  let cancel_params : PDict := [("symbol", .s symbol), ("orderId", .s order_id)]
  let req := LogEntry.apiRequest "futures_cancel_order" cancel_params
  match c.futures_cancel_order cancel_params with
  | .ok result =>
      { log := [req, .apiResponse "futures_cancel_order" result], result := .ok result }
  | .error e =>
      match e with
      | .binanceAPI m =>
          { log := [req, .errorLog ("Cancel Order " ++ order_id ++ " for " ++ symbol) m],
            result := .error (.binanceAPI m) }
      | e => { log := [req], result := .error e }

/-- Python truthiness of the optional `symbol` argument of
`get_open_orders` (`if symbol:`): None and the empty string are falsy. -/
def pyTruthy : Option String → Bool
  | none => false
  | some s => !s.data.isEmpty

/-- BasicBot.get_open_orders: includes the symbol key only when the
argument is truthy, logs, fetches, logs a count-only response; a
BinanceAPIException is logged with context
`f"Get Open Orders for {symbol or 'all symbols'}"` and re-raised. -/
def get_open_orders (c : Client) (symbol : Option String) : MethodResult (List PDict) :=
  let params : PDict := if pyTruthy symbol then [("symbol", .s (symbol.getD ""))] else []
  let req := LogEntry.apiRequest "futures_get_open_orders" params
  match c.futures_get_open_orders params with
  | .ok orders =>
      { log := [req, .apiResponse "futures_get_open_orders" [("count", .int orders.length)]],
        result := .ok orders }
  | .error e =>
      let who := if pyTruthy symbol then symbol.getD "" else "all symbols"
      match e with
      | .binanceAPI m =>
          { log := [req, .errorLog ("Get Open Orders for " ++ who) m],
            result := .error (.binanceAPI m) }
      | e => { log := [req], result := .error e }

/-- BasicBot.get_order_status: builds the params, logs, fetches, logs the
full order response; a BinanceAPIException is logged and re-raised. -/
def get_order_status (c : Client) (symbol order_id : String) : MethodResult PDict :=
  let params : PDict := [("symbol", .s symbol), ("orderId", .s order_id)]
  let req := LogEntry.apiRequest "futures_get_order" params
  match c.futures_get_order params with
  | .ok order =>
      { log := [req, .apiResponse "futures_get_order" order], result := .ok order }
  | .error e =>
      match e with
      | .binanceAPI m =>
          { log := [req, .errorLog ("Get Order Status " ++ order_id ++ " for " ++ symbol) m],
            result := .error (.binanceAPI m) }
      | e => { log := [req], result := .error e }

/-- BasicBot._test_connection: pings, then fetches the account; a
BinanceAPIException from either step is logged with context
"API Connection Test" and re-raised (other exceptions propagate
uncaught). -/
def test_connection (c : Client) : MethodResult Unit :=
  let req1 := LogEntry.apiRequest "ping" []
  match c.futures_ping with
  | .error e =>
      match e with
      | .binanceAPI m =>
          { log := [req1, .errorLog "API Connection Test" m], result := .error (.binanceAPI m) }
      | e => { log := [req1], result := .error e }
  | .ok ping_result =>
      let l1 := [req1, LogEntry.apiResponse "ping" ping_result,
                 LogEntry.apiRequest "account_info" []]
      match c.futures_account with
      | .error e =>
          match e with
          | .binanceAPI m =>
              { log := l1 ++ [.errorLog "API Connection Test" m],
                result := .error (.binanceAPI m) }
          | e => { log := l1, result := .error e }
      | .ok account_info =>
          { log := l1 ++
              [.apiResponse "account_info"
                 [("status", .s "success"),
                  ("totalWalletBalance",
                   .s ((account_info.lookup "totalWalletBalance").getD "N/A"))],
               .info "API connection successful"],
            result := .ok () }

/-- The endpoint URL hardcoded for testnet mode in BasicBot.__init__. -/
def TESTNET_URL : String := "https://testnet.binancefuture.com"

/-- The facade object BasicBot.__init__ yields on success: the client
handle and the endpoint URLs it was left configured with. -/
structure BasicBot where
  client : Client
  api_url : String
  futures_url : String

/-- BasicBot.__init__: constructs the client (whose constructor-default
URLs are `defaultApi`/`defaultFut`), overrides both URLs with the testnet
endpoint when `testnet` is true, logs the initialization line, runs the
connectivity check, and on any exception logs it with context
"Bot Initialization" and re-raises, so no facade object is returned. -/
def mkBasicBot (c : Client) (defaultApi defaultFut : String) (testnet : Bool) :
    MethodResult BasicBot :=
  let api_url := if testnet then TESTNET_URL else defaultApi
  let futures_url := if testnet then TESTNET_URL else defaultFut
  let initLog := [LogEntry.info "Trading Bot initialized successfully"]
  let t := test_connection c
  match t.result with
  | .ok _ =>
      { log := initLog ++ t.log,
        result := .ok { client := c, api_url := api_url, futures_url := futures_url } }
  | .error e =>
      { log := initLog ++ t.log ++ [.errorLog "Bot Initialization" e.msg],
        result := .error e }

/-- argparse handling of `--testnet` in `main`: `action="store_true"` with
`default=True`, so the parsed value is true whether or not the flag is
present on the command line. -/
def parseTestnetFlag (argv : List String) : Bool :=
  if argv.contains "--testnet" then true else true

/-- Modelled from Python's builtin `float(str)` restricted to optionally
signed plain decimal literals (optional surrounding whitespace, optional
sign, digits with an optional single decimal point); `none` models the
ValueError float() raises on anything else. -/
def pyFloatParse (s : String) : Option PyFloat :=
  let t := ((s.data.dropWhile Char.isWhitespace).reverse.dropWhile Char.isWhitespace).reverse
  let sb : Int × List Char :=
    match t with
    | '-' :: rest => (-1, rest)
    | '+' :: rest => (1, rest)
    | _ => (1, t)
  let sgn := sb.1
  let body := sb.2
  let sp := body.span fun c => !(c == '.')
  let ip := sp.1
  match sp.2 with
  | [] =>
      if !ip.isEmpty && ip.all Char.isDigit then
        some ⟨sgn * (ip.foldl (fun n c => n * 10 + (c.toNat - 48)) 0 : Nat), 0⟩
      else none
  | _ :: fp =>
      if (!ip.isEmpty || !fp.isEmpty) && ip.all Char.isDigit && fp.all Char.isDigit
         && fp.all fun c => !(c == '.') then
        some ⟨sgn * ((ip ++ fp).foldl (fun n c => n * 10 + (c.toNat - 48)) 0 : Nat), fp.length⟩
      else none

/-- A value produced by `validate_input`: Python returns either the
stripped-and-uppercased string or the parsed float, depending on the
requested `input_type`. -/
inductive PyVal
  | s (v : String)
  | f (v : PyFloat)
deriving DecidableEq, Repr

/-- The `input_type` argument of `validate_input` (`str` or `float`). -/
inductive InputType
  | str
  | float
deriving DecidableEq, Repr

/-- The conversion `validate_input` applies to one raw console line:
`user_input.strip().upper()` for `str`, `float(user_input)` for `float`;
`none` models the ValueError caught by the loop. -/
def convertInput : InputType → String → Option PyVal
  | .str, u => some (.s (pyUpper (pyStrip u)))
  | .float, u => (pyFloatParse u).map .f

/-- `validate_input` over a finite queue of console lines: re-prompts
(consumes the line and recurses) on a conversion failure or a failed
validation predicate, returns the first value that converts and
validates; `none` models an exhausted input queue. -/
def validate_input (t : InputType) (vf : Option (PyVal → Bool)) :
    List String → Option PyVal
  | [] => none
  | u :: rest =>
      match convertInput t u with
      | none => validate_input t vf rest
      | some v =>
          match vf with
          | some f => if f v then some v else validate_input t vf rest
          | none => some v

/-- The positivity predicate `lambda x: x > 0` passed by `main` for
quantity, price and stop-price prompts (over modelled float values). -/
def posCheck : PyVal → Bool
  | .f v => PyFloat.lt ⟨0, 0⟩ v
  | .s _ => false

/-- A healthy exchange used in witnesses: every endpoint succeeds and the
instrument list holds BTCUSDT with one LOT_SIZE filter. -/
def demoClient : Client where
  futures_ping := .ok []
  futures_account := .ok [("totalWalletBalance", "1000.0"),
                          ("availableBalance", "900.0"),
                          ("totalUnrealizedProfit", "5.0")]
  futures_symbol_ticker := fun _ => .ok ⟨"50000.0"⟩
  futures_exchange_info := .ok ⟨[⟨"BTCUSDT", "TRADING", "BTC", "USDT",
                                 [⟨"LOT_SIZE", "0.001", "0.001"⟩]⟩]⟩
  futures_create_order := fun _ => .ok [("orderId", .int 12345), ("status", .s "NEW")]
  futures_cancel_order := fun _ => .ok [("status", .s "CANCELED")]
  futures_get_open_orders := fun _ => .ok []
  futures_get_order := fun _ => .ok [("orderId", .int 12345), ("status", .s "NEW")]

/-- C1: every order-placement call passes the exchange client exactly the
fields of its order kind: market orders carry symbol, side, type=MARKET,
quantity and timestamp with neither price, stopPrice nor timeInForce;
limit orders additionally carry price and timeInForce=GTC; stop-limit
orders additionally carry price, stopPrice and timeInForce=GTC; and in
each case the dict logged and submitted is exactly that parameter dict. -/
theorem order_placement_exact_fields (c : Client) (symbol side : String)
    (quantity price stop_price : PyFloat) (ts : Int) :
    ((market_order_params symbol side quantity ts).map Prod.fst
        = ["symbol", "side", "type", "quantity", "timestamp"]
      ∧ (market_order_params symbol side quantity ts).lookup "type"
        = some (.s FUTURE_ORDER_TYPE_MARKET)
      ∧ (market_order_params symbol side quantity ts).lookup "price" = none
      ∧ (market_order_params symbol side quantity ts).lookup "stopPrice" = none
      ∧ (market_order_params symbol side quantity ts).lookup "timeInForce" = none)
    ∧ ((limit_order_params symbol side quantity price ts).map Prod.fst
        = ["symbol", "side", "type", "quantity", "price", "timeInForce", "timestamp"]
      ∧ (limit_order_params symbol side quantity price ts).lookup "price"
        = some (.num price)
      ∧ (limit_order_params symbol side quantity price ts).lookup "timeInForce"
        = some (.s TIME_IN_FORCE_GTC)
      ∧ (limit_order_params symbol side quantity price ts).lookup "stopPrice" = none)
    ∧ ((stop_limit_order_params symbol side quantity price stop_price ts).map Prod.fst
        = ["symbol", "side", "type", "quantity", "price", "stopPrice", "timeInForce",
           "timestamp"]
      ∧ (stop_limit_order_params symbol side quantity price stop_price ts).lookup "price"
        = some (.num price)
      ∧ (stop_limit_order_params symbol side quantity price stop_price ts).lookup "stopPrice"
        = some (.num stop_price)
      ∧ (stop_limit_order_params symbol side quantity price stop_price ts).lookup "timeInForce"
        = some (.s TIME_IN_FORCE_GTC))
    ∧ (place_market_order c symbol side quantity ts).log.head?
        = some (.apiRequest "futures_create_order" (market_order_params symbol side quantity ts))
    ∧ (place_limit_order c symbol side quantity price ts).log.head?
        = some (.apiRequest "futures_create_order"
            (limit_order_params symbol side quantity price ts))
    ∧ (place_stop_limit_order c symbol side quantity price stop_price ts).log.head?
        = some (.apiRequest "futures_create_order"
            (stop_limit_order_params symbol side quantity price stop_price ts)) := by
  refine ⟨⟨rfl, rfl, rfl, rfl, rfl⟩, ⟨rfl, rfl, rfl, rfl⟩, ⟨rfl, rfl, rfl, rfl⟩, ?_, ?_, ?_⟩
  · cases h : c.futures_create_order (market_order_params symbol side quantity ts) with
    | ok o => simp [place_market_order, h]
    | error e => cases e <;> simp [place_market_order, h]
  · cases h : c.futures_create_order (limit_order_params symbol side quantity price ts) with
    | ok o => simp [place_limit_order, h]
    | error e => cases e <;> simp [place_limit_order, h]
  · cases h : c.futures_create_order
        (stop_limit_order_params symbol side quantity price stop_price ts) with
    | ok o => simp [place_stop_limit_order, h]
    | error e => cases e <;> simp [place_stop_limit_order, h]

/-- C10: querying open orders with the empty-string symbol is
indistinguishable from querying with no symbol: the same (symbol-free)
parameter dict is sent, and the whole observable outcome (logs, result,
error context) coincides. -/
theorem get_open_orders_empty_eq_none (c : Client) :
    get_open_orders c (some "") = get_open_orders c none := rfl

/-- Whether a method outcome is a normal return (no raised exception). -/
def isOkE {α : Type} : Except PyError α → Bool
  | .ok _ => true
  | .error _ => false

/-- C3: when a symbol is absent from the exchange-wide instrument list,
get_symbol_info never returns a value (in particular no partial result),
and whenever the ticker fetch succeeded it raises exactly the ValueError
"Symbol ... not found". -/
theorem get_symbol_info_unknown_raises (c : Client) (symbol : String) (ei : ExchangeInfo)
    (hei : c.futures_exchange_info = .ok ei)
    (habs : ∀ r ∈ ei.symbols, r.symbol ≠ symbol) :
    (∀ v, (get_symbol_info c symbol).result ≠ .ok v)
    ∧ (∀ tk, c.futures_symbol_ticker symbol = .ok tk →
        (get_symbol_info c symbol).result
          = .error (.valueError ("Symbol " ++ symbol ++ " not found"))) := by
  have hfind : ei.symbols.find? (fun s => s.symbol == symbol) = none := by
    rw [List.find?_eq_none]
    intro x hx
    simpa using habs x hx
  constructor
  · intro v
    cases htk : c.futures_symbol_ticker symbol with
    | error e => cases e <;> simp [get_symbol_info, htk]
    | ok tk => simp [get_symbol_info, htk, hei, hfind]
  · intro tk htk
    simp [get_symbol_info, htk, hei, hfind]

/-- Witness for C3: the demo exchange does not list ZZZUSDT, and the
lookup raises the not-found ValueError. -/
theorem get_symbol_info_unknown_raises_witness :
    demoClient.futures_exchange_info
      = .ok ⟨[⟨"BTCUSDT", "TRADING", "BTC", "USDT", [⟨"LOT_SIZE", "0.001", "0.001"⟩]⟩]⟩
    ∧ (get_symbol_info demoClient "ZZZUSDT").result
        = .error (.valueError ("Symbol " ++ "ZZZUSDT" ++ " not found")) := by
  refine ⟨rfl, ?_⟩
  exact (get_symbol_info_unknown_raises demoClient "ZZZUSDT" _ rfl (by decide)).2
    ⟨"50000.0"⟩ rfl

/-- An exchange whose account endpoint returns an empty mapping. -/
def emptyAccountClient : Client :=
  { demoClient with futures_account := .ok [] }

/-- Counterexample to C5 as stated: when the account response lacks the
balance fields, get_account_balance still returns all three keys but with
the hardcoded default "0", which is not taken verbatim from the response
(the response has no such field at all). -/
theorem get_account_balance_counterexample :
    emptyAccountClient.futures_account = .ok []
    ∧ (get_account_balance emptyAccountClient).result
        = .ok [("totalWalletBalance", "0"), ("availableBalance", "0"),
               ("totalUnrealizedProfit", "0")]
    ∧ List.lookup "availableBalance" ([] : List (String × String)) = none :=
  ⟨rfl, rfl, rfl⟩

/-- C5 (amended): a successful get_account_balance returns a mapping with
exactly the keys totalWalletBalance, availableBalance and
totalUnrealizedProfit, each bound to the exchange response's value for
that key when the response has one, and to the string "0" otherwise. -/
theorem get_account_balance_exact_fields (c : Client) (resp bal : List (String × String))
    (hresp : c.futures_account = .ok resp)
    (hbal : (get_account_balance c).result = .ok bal) :
    bal.map Prod.fst = ["totalWalletBalance", "availableBalance", "totalUnrealizedProfit"]
    ∧ ∀ k ∈ bal.map Prod.fst, bal.lookup k = some ((resp.lookup k).getD "0") := by
  simp only [get_account_balance, hresp] at hbal
  rw [Except.ok.injEq] at hbal
  subst hbal
  refine ⟨rfl, ?_⟩
  intro k hk
  simp only [List.map, List.mem_cons, List.not_mem_nil, or_false] at hk
  rcases hk with h | h | h <;> subst h <;> rfl

/-- Witness for C5 (amended), at the demo exchange whose account response
carries all three fields. -/
theorem get_account_balance_exact_fields_witness :
    [("totalWalletBalance", "1000.0"), ("availableBalance", "900.0"),
     ("totalUnrealizedProfit", "5.0")].map Prod.fst
      = ["totalWalletBalance", "availableBalance", "totalUnrealizedProfit"]
    ∧ ∀ k ∈ [("totalWalletBalance", "1000.0"), ("availableBalance", "900.0"),
             ("totalUnrealizedProfit", "5.0")].map Prod.fst,
        List.lookup k [("totalWalletBalance", "1000.0"), ("availableBalance", "900.0"),
                       ("totalUnrealizedProfit", "5.0")]
          = some ((List.lookup k [("totalWalletBalance", "1000.0"),
                                  ("availableBalance", "900.0"),
                                  ("totalUnrealizedProfit", "5.0")]).getD "0") :=
  get_account_balance_exact_fields demoClient _ _ rfl rfl

/-- An exchange whose instrument XUSDT carries no filter of type
LOT_SIZE. -/
def noLotClient : Client :=
  { demoClient with futures_exchange_info := .ok ⟨[⟨"XUSDT", "TRADING", "X", "USDT", []⟩]⟩ }

/-- Counterexample to C6 as stated: XUSDT is a known symbol (listed, with
a successful ticker fetch) whose instrument record has no LOT_SIZE
filter; get_symbol_info succeeds and fills minQty and stepSize with the
placeholder "N/A", which is sourced from no filter. -/
theorem get_symbol_info_known_counterexample :
    noLotClient.futures_exchange_info = .ok ⟨[⟨"XUSDT", "TRADING", "X", "USDT", []⟩]⟩
    ∧ (get_symbol_info noLotClient "XUSDT").result
        = .ok [("symbol", "XUSDT"), ("price", "50000.0"), ("status", "TRADING"),
               ("baseAsset", "X"), ("quoteAsset", "USDT"),
               ("minQty", "N/A"), ("stepSize", "N/A")]
    ∧ List.find? (fun f => f.filterType == "LOT_SIZE") ([] : List SymbolFilter) = none :=
  ⟨rfl, rfl, rfl⟩

/-- C6 (amended): for a known symbol (successful ticker fetch, matching
instrument record found), get_symbol_info succeeds with a structure whose
symbol field equals the input and whose minQty/stepSize are taken from
the first filter of type LOT_SIZE of the matching instrument when one
exists, and are "N/A" otherwise. -/
theorem get_symbol_info_known_fields (c : Client) (symbol : String) (tk : Ticker)
    (ei : ExchangeInfo) (si : SymbolRec)
    (htk : c.futures_symbol_ticker symbol = .ok tk)
    (hei : c.futures_exchange_info = .ok ei)
    (hfind : ei.symbols.find? (fun r => r.symbol == symbol) = some si) :
    isOkE (get_symbol_info c symbol).result = true
    ∧ ∀ r, (get_symbol_info c symbol).result = .ok r →
        r.lookup "symbol" = some symbol
        ∧ r.lookup "minQty"
          = some (((si.filters.find? fun f => f.filterType == "LOT_SIZE").map
              SymbolFilter.minQty).getD "N/A")
        ∧ r.lookup "stepSize"
          = some (((si.filters.find? fun f => f.filterType == "LOT_SIZE").map
              SymbolFilter.stepSize).getD "N/A") := by
  constructor
  · simp [get_symbol_info, htk, hei, hfind, isOkE]
  · intro r hr
    simp only [get_symbol_info, htk, hei, hfind] at hr
    rw [Except.ok.injEq] at hr
    subst hr
    exact ⟨rfl, rfl, rfl⟩

/-- Witness for C6 (amended): BTCUSDT at the demo exchange, whose
instrument carries one LOT_SIZE filter. -/
theorem get_symbol_info_known_fields_witness :
    isOkE (get_symbol_info demoClient "BTCUSDT").result = true
    ∧ ((get_symbol_info demoClient "BTCUSDT").result
        = .ok [("symbol", "BTCUSDT"), ("price", "50000.0"), ("status", "TRADING"),
               ("baseAsset", "BTC"), ("quoteAsset", "USDT"),
               ("minQty", "0.001"), ("stepSize", "0.001")])
    ∧ List.lookup "symbol"
        [("symbol", "BTCUSDT"), ("price", "50000.0"), ("status", "TRADING"),
         ("baseAsset", "BTC"), ("quoteAsset", "USDT"),
         ("minQty", "0.001"), ("stepSize", "0.001")] = some "BTCUSDT"
    ∧ List.lookup "minQty"
        [("symbol", "BTCUSDT"), ("price", "50000.0"), ("status", "TRADING"),
         ("baseAsset", "BTC"), ("quoteAsset", "USDT"),
         ("minQty", "0.001"), ("stepSize", "0.001")]
      = some ((((⟨"BTCUSDT", "TRADING", "BTC", "USDT",
            [⟨"LOT_SIZE", "0.001", "0.001"⟩]⟩ : SymbolRec).filters.find?
              fun f => f.filterType == "LOT_SIZE").map SymbolFilter.minQty).getD "N/A") := by
  have h := get_symbol_info_known_fields demoClient "BTCUSDT" ⟨"50000.0"⟩
    ⟨[⟨"BTCUSDT", "TRADING", "BTC", "USDT", [⟨"LOT_SIZE", "0.001", "0.001"⟩]⟩]⟩
    ⟨"BTCUSDT", "TRADING", "BTC", "USDT", [⟨"LOT_SIZE", "0.001", "0.001"⟩]⟩
    rfl rfl rfl
  have h2 := h.2 _ rfl
  exact ⟨h.1, rfl, h2.1, h2.2.1⟩

/-- C4: when the exchange client signals a vendor error (API or
order-rejection exception) on any of the three order-placement calls, the
facade emits exactly one error-log entry, carrying the operation-specific
context text and the error's message, and re-raises the very same
exception (same constructor, same message) with no translation and no
retry (the client is invoked once, so the log holds exactly one request
entry). -/
theorem order_placement_error_propagation (c : Client) (symbol side : String)
    (quantity price stop_price : PyFloat) (ts : Int) (e : PyError)
    (he : e.isBinance = true) :
    (c.futures_create_order (market_order_params symbol side quantity ts) = .error e →
        (place_market_order c symbol side quantity ts).result = .error e
        ∧ errEntries (place_market_order c symbol side quantity ts).log
            = [.errorLog ("Market Order " ++ side ++ " " ++ pyFloatStr quantity ++ " "
                ++ symbol) e.msg]
        ∧ reqNames (place_market_order c symbol side quantity ts).log
            = ["futures_create_order"])
    ∧ (c.futures_create_order (limit_order_params symbol side quantity price ts)
          = .error e →
        (place_limit_order c symbol side quantity price ts).result = .error e
        ∧ errEntries (place_limit_order c symbol side quantity price ts).log
            = [.errorLog ("Limit Order " ++ side ++ " " ++ pyFloatStr quantity ++ " "
                ++ symbol ++ " @ " ++ pyFloatStr price) e.msg]
        ∧ reqNames (place_limit_order c symbol side quantity price ts).log
            = ["futures_create_order"])
    ∧ (c.futures_create_order
          (stop_limit_order_params symbol side quantity price stop_price ts) = .error e →
        (place_stop_limit_order c symbol side quantity price stop_price ts).result
          = .error e
        ∧ errEntries (place_stop_limit_order c symbol side quantity price stop_price ts).log
            = [.errorLog ("Stop-Limit Order " ++ side ++ " " ++ pyFloatStr quantity ++ " "
                ++ symbol ++ " @ " ++ pyFloatStr price ++ " (stop: "
                ++ pyFloatStr stop_price ++ ")") e.msg]
        ∧ reqNames (place_stop_limit_order c symbol side quantity price stop_price ts).log
            = ["futures_create_order"]) := by
  refine ⟨?_, ?_, ?_⟩ <;> intro h <;>
    cases e <;> simp [PyError.isBinance] at he <;>
    simp [place_market_order, place_limit_order, place_stop_limit_order, h,
      errEntries, reqNames, PyError.msg]

/-- An exchange that rejects every order submission with an API error. -/
def rejectingClient : Client :=
  { demoClient with futures_create_order := fun _ => .error (.binanceAPI "boom") }

/-- Witness for C4: a market order rejected by the exchange propagates the
same exception after exactly one error-log entry. -/
theorem order_placement_error_propagation_witness :
    (PyError.binanceAPI "boom").isBinance = true
    ∧ (place_market_order rejectingClient "BTCUSDT" "BUY" ⟨1, 2⟩ 1700000000000).result
        = .error (.binanceAPI "boom")
    ∧ errEntries (place_market_order rejectingClient "BTCUSDT" "BUY" ⟨1, 2⟩
          1700000000000).log
        = [.errorLog ("Market Order " ++ "BUY" ++ " " ++ pyFloatStr ⟨1, 2⟩ ++ " "
            ++ "BTCUSDT") (PyError.msg (.binanceAPI "boom"))] := by
  have h := order_placement_error_propagation rejectingClient "BTCUSDT" "BUY"
    ⟨1, 2⟩ ⟨1, 2⟩ ⟨1, 2⟩ 1700000000000 (.binanceAPI "boom") rfl
  exact ⟨rfl, (h.1 rfl).1, (h.1 rfl).2.1⟩

/-- C7: if the startup connectivity check fails, BasicBot construction
fails by propagating that very exception (no facade object is returned);
in particular a failing ping, or a successful ping followed by a failing
account fetch, makes the connectivity check fail. -/
theorem init_fails_on_connectivity_failure (c : Client) (defaultApi defaultFut : String)
    (testnet : Bool) (e : PyError) :
    ((test_connection c).result = .error e →
        (mkBasicBot c defaultApi defaultFut testnet).result = .error e)
    ∧ (c.futures_ping = .error e → (test_connection c).result = .error e)
    ∧ (∀ pr, c.futures_ping = .ok pr → c.futures_account = .error e →
        (test_connection c).result = .error e) := by
  refine ⟨?_, ?_, ?_⟩
  · intro h
    simp [mkBasicBot, h]
  · intro h
    cases e <;> simp [test_connection, h]
  · intro pr hp ha
    cases e <;> simp [test_connection, hp, ha]

/-- An exchange whose ping endpoint is down. -/
def deadPingClient : Client :=
  { demoClient with futures_ping := .error (.binanceAPI "connection refused") }

/-- Witness for C7: a client with a failing ping makes construction fail
with that same exception. -/
theorem init_fails_on_connectivity_failure_witness :
    (test_connection deadPingClient).result = .error (.binanceAPI "connection refused")
    ∧ (mkBasicBot deadPingClient "https://api.binance.com" "https://fapi.binance.com"
        true).result = .error (.binanceAPI "connection refused") := by
  have h := init_fails_on_connectivity_failure deadPingClient "https://api.binance.com"
    "https://fapi.binance.com" true (.binanceAPI "connection refused")
  have h2 := h.2.1 rfl
  exact ⟨h2, h.1 h2⟩

/-- C9: the parsed value of the --testnet flag is true for every
command line (store_true with default True leaves no way to pass false),
and a facade constructed with that value has both endpoint URLs set to
the testnet endpoint. -/
theorem testnet_flag_always_true (argv : List String) (c : Client)
    (defaultApi defaultFut : String) (b : BasicBot) :
    parseTestnetFlag argv = true
    ∧ ((mkBasicBot c defaultApi defaultFut (parseTestnetFlag argv)).result = .ok b →
        b.api_url = TESTNET_URL ∧ b.futures_url = TESTNET_URL) := by
  have hflag : parseTestnetFlag argv = true := by
    simp [parseTestnetFlag]
  refine ⟨hflag, ?_⟩
  intro h
  rw [hflag] at h
  cases ht : (test_connection c).result with
  | error e => simp [mkBasicBot, ht] at h
  | ok u =>
      simp only [mkBasicBot, ht] at h
      rw [Except.ok.injEq] at h
      subst h
      exact ⟨rfl, rfl⟩

/-- Witness for C9: an invocation without the flag still parses to true,
and the constructed facade points at the testnet endpoint. -/
theorem testnet_flag_always_true_witness :
    parseTestnetFlag ["--api-key", "k", "--api-secret", "s"] = true
    ∧ ({ client := demoClient, api_url := TESTNET_URL,
         futures_url := TESTNET_URL } : BasicBot).api_url = TESTNET_URL
    ∧ ({ client := demoClient, api_url := TESTNET_URL,
         futures_url := TESTNET_URL } : BasicBot).futures_url = TESTNET_URL := by
  have h := testnet_flag_always_true ["--api-key", "k", "--api-secret", "s"] demoClient
    "https://api.binance.com" "https://fapi.binance.com"
    { client := demoClient, api_url := TESTNET_URL, futures_url := TESTNET_URL }
  have h2 := h.2 rfl
  exact ⟨h.1, h2.1, h2.2⟩

/-- C8: over any finite sequence of console lines, a numeric
`validate_input` prompt consumes a non-numeric entry (a conversion
failure) and re-prompts on the remaining input without crashing, likewise
consumes and re-prompts on an entry that converts but fails the
validation predicate (in particular a non-positive quantity or price
under the positivity predicate), and any value it does return parses
from one of the entered lines to the requested numeric type and satisfies
the positivity predicate. -/
theorem validate_input_only_valid :
    (∀ (inputs : List String) (w : PyVal),
        validate_input .float (some posCheck) inputs = some w →
        ∃ v : PyFloat, w = .f v ∧ PyFloat.lt ⟨0, 0⟩ v = true
          ∧ ∃ u ∈ inputs, pyFloatParse u = some v)
    ∧ (∀ (t : InputType) (vf : Option (PyVal → Bool)) (u : String) (rest : List String),
        convertInput t u = none →
        validate_input t vf (u :: rest) = validate_input t vf rest)
    ∧ (∀ (vf : PyVal → Bool) (u : String) (v : PyFloat) (rest : List String),
        pyFloatParse u = some v → vf (.f v) = false →
        validate_input .float (some vf) (u :: rest)
          = validate_input .float (some vf) rest) := by
  refine ⟨?_, ?_, ?_⟩
  · intro inputs
    induction inputs with
    | nil =>
        intro w h
        simp [validate_input] at h
    | cons u rest ih =>
        intro w h
        rw [validate_input] at h
        cases hc : convertInput .float u with
        | none =>
            rw [hc] at h
            obtain ⟨v, hv, hpos, u', hu', hp⟩ := ih w h
            exact ⟨v, hv, hpos, u', List.mem_cons_of_mem _ hu', hp⟩
        | some pv =>
            rw [hc] at h
            cases hp : pyFloatParse u with
            | none => rw [convertInput, hp] at hc; simp at hc
            | some pf =>
                have hpv : pv = .f pf := by
                  rw [convertInput, hp] at hc
                  simpa using hc.symm
                subst hpv
                dsimp only at h
                cases hpos : posCheck (.f pf) with
                | true =>
                    rw [hpos] at h
                    simp at h
                    subst h
                    exact ⟨pf, rfl, hpos, u, List.mem_cons_self u rest, hp⟩
                | false =>
                    rw [hpos] at h
                    simp at h
                    obtain ⟨v, hv, hposv, u', hu', hpu⟩ := ih w h
                    exact ⟨v, hv, hposv, u', List.mem_cons_of_mem _ hu', hpu⟩
  · intro t vf u rest h
    rw [validate_input, h]
  · intro vf u v rest hp hf
    rw [validate_input]
    simp [convertInput, hp, hf]

/-- Witness for C8: on the input queue "abc", "-1", "5" the prompt skips
the non-numeric line and the non-positive line and returns 5; each
re-prompt step is exhibited on concrete inputs. -/
theorem validate_input_only_valid_witness :
    validate_input .float (some posCheck) ["abc", "-1", "5"] = some (.f ⟨5, 0⟩)
    ∧ (∃ v : PyFloat, (PyVal.f ⟨5, 0⟩) = PyVal.f v ∧ PyFloat.lt ⟨0, 0⟩ v = true
        ∧ ∃ u ∈ ["abc", "-1", "5"], pyFloatParse u = some v)
    ∧ validate_input .float (some posCheck) ["abc", "5"]
        = validate_input .float (some posCheck) ["5"]
    ∧ validate_input .float (some posCheck) ["-1", "5"]
        = validate_input .float (some posCheck) ["5"] := by
  refine ⟨by decide,
    validate_input_only_valid.1 ["abc", "-1", "5"] (.f ⟨5, 0⟩) (by decide),
    validate_input_only_valid.2.1 .float (some posCheck) "abc" ["5"] (by decide),
    validate_input_only_valid.2.2 posCheck "-1" ⟨-1, 0⟩ ["5"] (by decide) (by decide)⟩

/-- Counterexample to C2 as stated: a successful get_symbol_info call
emits two request-log entries (futures_symbol_ticker and then
futures_exchange_info) and a single response-log entry recorded under
the name symbol_info, so it has neither exactly one request entry nor a
request name equal to the response name. -/
theorem request_response_log_counterexample :
    isOkE (get_symbol_info demoClient "BTCUSDT").result = true
    ∧ reqNames (get_symbol_info demoClient "BTCUSDT").log
        = ["futures_symbol_ticker", "futures_exchange_info"]
    ∧ respNames (get_symbol_info demoClient "BTCUSDT").log = ["symbol_info"]
    ∧ (reqNames (get_symbol_info demoClient "BTCUSDT").log).length ≠ 1 := by
  exact ⟨rfl, rfl, rfl, by decide⟩

/-- C2 (amended): every successful facade operation except
get_symbol_info produces exactly one request-log entry and exactly one
response-log entry, recorded under the same operation name; a successful
get_symbol_info produces exactly two request-log entries, named
futures_symbol_ticker and futures_exchange_info, and one response-log
entry named symbol_info. -/
theorem request_response_log_discipline (c : Client) (symbol side order_id : String)
    (osymbol : Option String) (quantity price stop_price : PyFloat) (ts : Int) :
    (isOkE (get_account_balance c).result = true →
        reqNames (get_account_balance c).log = ["futures_account"]
        ∧ respNames (get_account_balance c).log = ["futures_account"])
    ∧ (isOkE (get_symbol_info c symbol).result = true →
        reqNames (get_symbol_info c symbol).log
          = ["futures_symbol_ticker", "futures_exchange_info"]
        ∧ respNames (get_symbol_info c symbol).log = ["symbol_info"])
    ∧ (isOkE (place_market_order c symbol side quantity ts).result = true →
        reqNames (place_market_order c symbol side quantity ts).log
          = ["futures_create_order"]
        ∧ respNames (place_market_order c symbol side quantity ts).log
          = ["futures_create_order"])
    ∧ (isOkE (place_limit_order c symbol side quantity price ts).result = true →
        reqNames (place_limit_order c symbol side quantity price ts).log
          = ["futures_create_order"]
        ∧ respNames (place_limit_order c symbol side quantity price ts).log
          = ["futures_create_order"])
    ∧ (isOkE (place_stop_limit_order c symbol side quantity price stop_price ts).result
          = true →
        reqNames (place_stop_limit_order c symbol side quantity price stop_price ts).log
          = ["futures_create_order"]
        ∧ respNames (place_stop_limit_order c symbol side quantity price stop_price ts).log
          = ["futures_create_order"])
    ∧ (isOkE (cancel_order c symbol order_id).result = true →
        reqNames (cancel_order c symbol order_id).log = ["futures_cancel_order"]
        ∧ respNames (cancel_order c symbol order_id).log = ["futures_cancel_order"])
    ∧ (isOkE (get_open_orders c osymbol).result = true →
        reqNames (get_open_orders c osymbol).log = ["futures_get_open_orders"]
        ∧ respNames (get_open_orders c osymbol).log = ["futures_get_open_orders"])
    ∧ (isOkE (get_order_status c symbol order_id).result = true →
        reqNames (get_order_status c symbol order_id).log = ["futures_get_order"]
        ∧ respNames (get_order_status c symbol order_id).log = ["futures_get_order"]) := by
  refine ⟨?_, ?_, ?_, ?_, ?_, ?_, ?_, ?_⟩
  · intro h
    cases ha : c.futures_account with
    | ok a => simp [get_account_balance, ha, reqNames, respNames]
    | error e => cases e <;> simp [get_account_balance, ha, isOkE] at h
  · intro h
    cases htk : c.futures_symbol_ticker symbol with
    | error e => cases e <;> simp [get_symbol_info, htk, isOkE] at h
    | ok tk =>
        cases hei : c.futures_exchange_info with
        | error e => cases e <;> simp [get_symbol_info, htk, hei, isOkE] at h
        | ok ei =>
            cases hf : ei.symbols.find? (fun s => s.symbol == symbol) with
            | none => simp [get_symbol_info, htk, hei, hf, isOkE] at h
            | some si => simp [get_symbol_info, htk, hei, hf, reqNames, respNames]
  · intro h
    cases ho : c.futures_create_order (market_order_params symbol side quantity ts) with
    | ok o => simp [place_market_order, ho, reqNames, respNames]
    | error e => cases e <;> simp [place_market_order, ho, isOkE] at h
  · intro h
    cases ho : c.futures_create_order (limit_order_params symbol side quantity price ts) with
    | ok o => simp [place_limit_order, ho, reqNames, respNames]
    | error e => cases e <;> simp [place_limit_order, ho, isOkE] at h
  · intro h
    cases ho : c.futures_create_order
        (stop_limit_order_params symbol side quantity price stop_price ts) with
    | ok o => simp [place_stop_limit_order, ho, reqNames, respNames]
    | error e => cases e <;> simp [place_stop_limit_order, ho, isOkE] at h
  · intro h
    cases ho : c.futures_cancel_order [("symbol", .s symbol), ("orderId", .s order_id)] with
    | ok o => simp [cancel_order, ho, reqNames, respNames]
    | error e => cases e <;> simp [cancel_order, ho, isOkE] at h
  · intro h
    cases ho : c.futures_get_open_orders
        (if pyTruthy osymbol then [("symbol", .s (osymbol.getD ""))] else []) with
    | ok o => simp [get_open_orders, ho, reqNames, respNames]
    | error e => cases e <;> simp [get_open_orders, ho, isOkE] at h
  · intro h
    cases ho : c.futures_get_order [("symbol", .s symbol), ("orderId", .s order_id)] with
    | ok o => simp [get_order_status, ho, reqNames, respNames]
    | error e => cases e <;> simp [get_order_status, ho, isOkE] at h

/-- Witness for C2 (amended): three successful operations at the demo
exchange, exhibiting the single matching request/response pair for
get_account_balance and cancel_order and the two-request shape of
get_symbol_info. -/
theorem request_response_log_discipline_witness :
    reqNames (get_account_balance demoClient).log = ["futures_account"]
    ∧ respNames (get_account_balance demoClient).log = ["futures_account"]
    ∧ reqNames (get_symbol_info demoClient "BTCUSDT").log
        = ["futures_symbol_ticker", "futures_exchange_info"]
    ∧ respNames (get_symbol_info demoClient "BTCUSDT").log = ["symbol_info"]
    ∧ reqNames (cancel_order demoClient "BTCUSDT" "12345").log = ["futures_cancel_order"]
    ∧ respNames (cancel_order demoClient "BTCUSDT" "12345").log
        = ["futures_cancel_order"] := by
  have h := request_response_log_discipline demoClient "BTCUSDT" "BUY" "12345"
    (some "BTCUSDT") ⟨1, 2⟩ ⟨5, 0⟩ ⟨6, 0⟩ 1700000000000
  exact ⟨(h.1 rfl).1, (h.1 rfl).2, (h.2.1 rfl).1, (h.2.1 rfl).2,
    (h.2.2.2.2.2.1 rfl).1, (h.2.2.2.2.2.1 rfl).2⟩
